import Mathlib

/-!
Shallow embedding of gamescope's FPS limiter (`src/FPSLimiter.h`,
class `gamescope::CFPSLimiter`) and proofs about it.

Modelling conventions:
* `uint32_t` / `uint64_t` values are `Nat`; arithmetic the C++ code performs
  on them is wrapped explicitly with `% 2^32` / `% 2^64` via the helpers
  `u32succ`, `u32pred`, `u64add`, `u64sub`.
* `Rc<CVulkanTexture>` handles are buffer identifiers (`Nat`); the per-buffer
  timestamp records live in a store `World.buffers : Nat → BufferTimestamp_t`.
  The declaration of `CVulkanTexture` is in `rendervulkan.hpp`, which is not
  part of this tree; per the specification the buffer exposes a single
  lock-protected timestamp record (submit/CPU time, completion/GPU time,
  release time), so `m_BufferTimestamp` / `m_oBufferTimestamp` both denote
  that record.
* External collaborators are explicit inputs: the vblank timer's answer to
  `GetVBlankTimer().CalcNextWakeupTime(true)` is a `VBlankScheduleTime`
  argument, and each sample of `get_time_in_nanos()` is a `Nat` argument.
  `ITimerWaitable::ArmTimer` (declared in `waitable.h`, outside this tree) is
  modelled as recording the registered absolute deadline in the field
  `m_ulTimerDeadline`.
* The members `m_ulLastGPUTimestamp` and `m_ulLastRelease` are read by
  `CalcNextWakeupTime` but have no declaration in the class body; they are
  modelled as `Nat` fields initialised to 0, and (faithfully to the source)
  no operation ever writes them.
-/

namespace Gamescope

/-- Modulus of `uint32_t` arithmetic. -/
def U32 : Nat := 2 ^ 32

/-- Modulus of `uint64_t` arithmetic. -/
def U64 : Nat := 2 ^ 64

/-- Wrapping `uint64_t` subtraction `a - b`. -/
def u64sub (a b : Nat) : Nat := (a % U64 + (U64 - b % U64)) % U64

/-- Wrapping `uint64_t` addition `a + b`. -/
def u64add (a b : Nat) : Nat := (a + b) % U64

/-- Wrapping `uint32_t` increment `a + 1` (the `++m_uAcquiredBuffers` in `HoldBuffer`). -/
def u32succ (a : Nat) : Nat := (a + 1) % U32

/-- Wrapping `uint32_t` decrement `a - 1` (the `m_uAcquiredBuffers--` in `ReleaseOldestBuffer`). -/
def u32pred (a : Nat) : Nat := (a % U32 + (U32 - 1)) % U32

/-- Result of `VBlankTimer::CalcNextWakeupTime` (`vblankmanager.hpp`): the
refresh oracle's predicted target vblank, target latch and its own scheduled
wakeup point, all absolute nanosecond timestamps. -/
structure VBlankScheduleTime where
  ulTargetVBlank : Nat := 0
  ulTargetLatch : Nat := 0
  ulScheduledWakeupPoint : Nat := 0
  deriving DecidableEq

/-- `gamescope::FPSLimitScheduleTime_t` from `FPSLimiter.h`. -/
structure FPSLimitScheduleTime_t where
  ulTargetVBlank : Nat := 0
  ulTargetLatch : Nat := 0
  ulScheduledWakeupPoint : Nat := 0
  deriving DecidableEq

/-- A buffer's timestamp record (CPU submit time, GPU completion time,
release time), held behind the buffer's own lock. -/
structure BufferTimestamp_t where
  ulCPUTime : Nat := 0
  ulGPUTime : Nat := 0
  ulReleaseTime : Nat := 0
  deriving DecidableEq

/-- The state of `gamescope::CFPSLimiter`, with the in-class initialisers of
the source (`m_bArmed = false`, `m_uTotalBuffers = 1u`,
`m_uAcquiredBuffers = 1u`, empty held-buffer vector, zero schedule) as
default field values. -/
structure CFPSLimiter where
  m_bArmed : Bool := false
  m_uTotalBuffers : Nat := 1
  m_uAcquiredBuffers : Nat := 1
  m_pHeldBuffers : List Nat := []
  m_TimerFDSchedule : FPSLimitScheduleTime_t := {}
  m_ulLastGPUTimestamp : Nat := 0
  m_ulLastRelease : Nat := 0
  m_ulTimerDeadline : Nat := 0
  deriving DecidableEq

/-- The limiter together with the store of per-buffer timestamp records. -/
structure World where
  limiter : CFPSLimiter
  buffers : Nat → BufferTimestamp_t

/-- A freshly constructed `CFPSLimiter` together with fresh (all-zero)
buffer timestamp records. -/
def initWorld : World := { limiter := {}, buffers := fun _ => {} }

/-- `CFPSLimiter::CalcNextWakeupTime`. The argument `vbl` is the value
returned by the `GetVBlankTimer().CalcNextWakeupTime( true )` call, `now` the
sample of `get_time_in_nanos()`. Returns the computed schedule together with
the (unchanged) limiter state, mirroring that the C++ member function
mutates nothing. The `bPreemptive` parameter is unused by the body, exactly
as in the source, which hardcodes `true` for the vblank timer query. -/
def CalcNextWakeupTime (s : CFPSLimiter) (bPreemptive : Bool)
    (vbl : VBlankScheduleTime) (now : Nat) :
    FPSLimitScheduleTime_t × CFPSLimiter :=
  let nextVBlankSchedule := vbl
  let ulDelta := u64sub s.m_ulLastGPUTimestamp s.m_ulLastRelease
  let ulNextReleaseTime := u64sub nextVBlankSchedule.ulScheduledWakeupPoint ulDelta
  let ulNow := now
  let ulSloppyNow := u64add ulNow 500000
  let ulNextReleaseTime := if ulSloppyNow < ulNextReleaseTime then ulNow else ulNextReleaseTime
  ({ ulTargetVBlank := nextVBlankSchedule.ulTargetVBlank,
     ulTargetLatch := nextVBlankSchedule.ulScheduledWakeupPoint,
     ulScheduledWakeupPoint := ulNextReleaseTime }, s)

/-- `CFPSLimiter::ArmNextFrame`. `ITimerWaitable::ArmTimer` is modelled by
recording the deadline in `m_ulTimerDeadline`. -/
def ArmNextFrame (w : World) (bPreemptive : Bool)
    (vbl : VBlankScheduleTime) (now : Nat) : World :=
  if bPreemptive && w.limiter.m_bArmed then w
  else
    let l1 := { w.limiter with m_bArmed := true }
    let r := CalcNextWakeupTime l1 bPreemptive vbl now
    { w with limiter :=
        { r.2 with m_TimerFDSchedule := r.1,
                   m_ulTimerDeadline := r.1.ulScheduledWakeupPoint } }

/-- `CFPSLimiter::HoldBuffer`: append the buffer to the held queue and
increment the acquired counter. The over-acquisition check in the source
only has a `// warn` comment in its body, so it has no effect on state. -/
def HoldBuffer (w : World) (pTexture : Nat) : World :=
  { w with limiter :=
      { w.limiter with
          m_pHeldBuffers := w.limiter.m_pHeldBuffers ++ [pTexture],
          m_uAcquiredBuffers := u32succ w.limiter.m_uAcquiredBuffers } }

/-- `CFPSLimiter::ReleaseAllBuffers`: clear the queue, zero the acquired
counter, return the prior counter value. -/
def ReleaseAllBuffers (w : World) : Nat × World :=
  (w.limiter.m_uAcquiredBuffers,
   { w with limiter :=
       { w.limiter with m_pHeldBuffers := [], m_uAcquiredBuffers := 0 } })

/-- `CFPSLimiter::SetTotalBuffers`: store the new total, then release all
buffers. -/
def SetTotalBuffers (w : World) (uTotalBuffers : Nat) : World :=
  (ReleaseAllBuffers { w with limiter :=
      { w.limiter with m_uTotalBuffers := uTotalBuffers } }).2

/-- `CFPSLimiter::ReleaseOldestBuffer`. On an empty queue: return 0, change
nothing. Otherwise update the front buffer's timestamp record, pop the
front, post-decrement the acquired counter and return its prior value.

Modelled from the spec: the timestamp update in the source is syntactically
incomplete (it locks an unbound `pTexture` and the assignment
`m_pHeldBuffers[0]->m_BufferTimestamp =` has no right-hand side); the
specification resolves it as setting the front buffer's `releaseTime` to the
current time, which is what this definition does (`now` being the current
time). Everything else follows the source. -/
def ReleaseOldestBuffer (w : World) (now : Nat) : Nat × World :=
  match w.limiter.m_pHeldBuffers with
  | [] => (0, w)
  | front :: rest =>
    let w1 := { w with buffers := (fun i =>
        if i = front then { (w.buffers front) with ulReleaseTime := now }
        else w.buffers i) }
    let uOldTotalAcquiredBuffers := w1.limiter.m_uAcquiredBuffers
    (uOldTotalAcquiredBuffers,
     { w1 with limiter :=
         { w1.limiter with
             m_pHeldBuffers := rest,
             m_uAcquiredBuffers := u32pred uOldTotalAcquiredBuffers } })

/-- The value the local `ulDelta` holds after the first block of
`CFPSLimiter::MarkFrame`: `ulDelta` is initialised to 0 and, when the
buffer's previous release time is nonzero, reassigned
`ulGPUTimestampNanos - ulDelta` — a self-reference to the still-zero local,
not a use of the release time that was just read. -/
def MarkFrame_ulDelta (ulReleaseTime ulGPUTimestampNanos : Nat) : Nat :=
  let ulDelta := 0
  if ulReleaseTime ≠ 0 then u64sub ulGPUTimestampNanos ulDelta else ulDelta

/-- `CFPSLimiter::MarkFrame`: overwrite the buffer's timestamp record with
the new CPU/GPU timestamps, carrying the previous release time forward;
hold the buffer; optionally re-arm (non-preemptively). The computed
`ulDelta` is dead — the source never stores it anywhere. -/
def MarkFrame (w : World) (pTexture : Nat)
    (ulCPUTimestampNanos ulGPUTimestampNanos : Nat) (bReArmTimer : Bool)
    (vbl : VBlankScheduleTime) (now : Nat) : World :=
  let ulReleaseTime := (w.buffers pTexture).ulReleaseTime
  let _ := MarkFrame_ulDelta ulReleaseTime ulGPUTimestampNanos
  let w1 := { w with buffers := (fun i =>
      if i = pTexture then
        { ulCPUTime := ulCPUTimestampNanos,
          ulGPUTime := ulGPUTimestampNanos,
          ulReleaseTime := ulReleaseTime }
      else w.buffers i) }
  let w2 := HoldBuffer w1 pTexture
  if bReArmTimer then ArmNextFrame w2 false vbl now else w2

/-- `CFPSLimiter::OnPollIn`: test-and-clear the armed flag; on a stale
wakeup do nothing, otherwise release the oldest buffer and re-arm
preemptively. `nowRelease` and `nowArm` are the two `get_time_in_nanos()`
samples taken inside `ReleaseOldestBuffer` and `CalcNextWakeupTime`. -/
def OnPollIn (w : World) (vbl : VBlankScheduleTime)
    (nowRelease nowArm : Nat) : World :=
  if w.limiter.m_bArmed then
    let w1 := { w with limiter := { w.limiter with m_bArmed := false } }
    let w2 := (ReleaseOldestBuffer w1 nowRelease).2
    ArmNextFrame w2 true vbl nowArm
  else w

/-- An externally triggered call into the buffer hold/release queue:
either a `HoldBuffer` of a given buffer or a `ReleaseOldestBuffer` with the
`get_time_in_nanos()` sample it takes. -/
inductive BufferOp where
  | hold : Nat → BufferOp
  | releaseOldest : Nat → BufferOp
  deriving DecidableEq

/-- Run one `BufferOp`. -/
def runBufferOp (w : World) : BufferOp → World
  | BufferOp.hold p => HoldBuffer w p
  | BufferOp.releaseOldest now => (ReleaseOldestBuffer w now).2

/-- Run a sequence of `BufferOp`s from left to right. -/
def runBufferOps : World → List BufferOp → World
  | w, [] => w
  | w, op :: ops => runBufferOps (runBufferOp w op) ops

/-- The buffers a sequence of calls submits, in submission order. -/
def submittedBuffers : List BufferOp → List Nat
  | [] => []
  | BufferOp.hold p :: ops => p :: submittedBuffers ops
  | BufferOp.releaseOldest _ :: ops => submittedBuffers ops

/-- The buffers a sequence of calls releases, in release order: a
`ReleaseOldestBuffer` on a non-empty queue releases the queue's front
(`List.take 1`), on an empty queue nothing. -/
def releasedBuffers : World → List BufferOp → List Nat
  | _, [] => []
  | w, BufferOp.hold p :: ops => releasedBuffers (HoldBuffer w p) ops
  | w, BufferOp.releaseOldest now :: ops =>
      w.limiter.m_pHeldBuffers.take 1 ++
        releasedBuffers (ReleaseOldestBuffer w now).2 ops

/-- Any of the five public mutating operations, with the external inputs
each call consumes. -/
inductive LimiterOp where
  | hold : Nat → LimiterOp
  | releaseOldest : Nat → LimiterOp
  | releaseAll : LimiterOp
  | setTotal : Nat → LimiterOp
  | markFrame : Nat → Nat → Nat → Bool → VBlankScheduleTime → Nat → LimiterOp

/-- Run one `LimiterOp`. -/
def runLimiterOp (w : World) : LimiterOp → World
  | LimiterOp.hold p => HoldBuffer w p
  | LimiterOp.releaseOldest now => (ReleaseOldestBuffer w now).2
  | LimiterOp.releaseAll => (ReleaseAllBuffers w).2
  | LimiterOp.setTotal n => SetTotalBuffers w n
  | LimiterOp.markFrame p cpu gpu rearm vbl now =>
      MarkFrame w p cpu gpu rearm vbl now

/-- Limiter state with the timings of the spec's worked example:
`lastCompletionTime = 5,000,000`, `lastReleaseTime = 3,000,000`. -/
def exLimiterC1 : CFPSLimiter :=
  { m_ulLastGPUTimestamp := 5000000, m_ulLastRelease := 3000000 }

/-- Refresh-oracle answer whose scheduled wakeup point (the field the code
uses as the target latch) is `16,666,666`. -/
def exOracleC1 : VBlankScheduleTime := { ulScheduledWakeupPoint := 16666666 }

/-- A world whose limiter is already armed. -/
def exWorldArmed : World :=
  { limiter := { m_bArmed := true }, buffers := fun _ => {} }

/-- A world holding the single buffer `42` with one acquired buffer. -/
def exWorldC3 : World :=
  { limiter := { m_pHeldBuffers := [42], m_uAcquiredBuffers := 1 },
    buffers := fun _ => {} }

/-- A world whose buffers all carry a previous release time of
`3,000,000`. -/
def exWorldC5 : World :=
  { limiter := {},
    buffers := fun _ => { ulReleaseTime := 3000000 } }

theorem u64_val : U64 = 18446744073709551616 := by norm_num [U64]

theorem u32_val : U32 = 4294967296 := by norm_num [U32]

theorem u64sub_eq (a b : Nat) (hba : b ≤ a) (ha : a < U64) :
    u64sub a b = a - b := by
  rw [u64_val] at ha
  simp only [u64sub, u64_val]
  omega

theorem u64add_eq (a b : Nat) (h : a + b < U64) : u64add a b = a + b := by
  rw [u64_val] at h
  simp only [u64add, u64_val]
  omega

theorem u32succ_eq (a : Nat) (h : a + 1 < U32) : u32succ a = a + 1 := by
  rw [u32_val] at h
  simp only [u32succ, u32_val]
  omega

theorem u32pred_eq (a : Nat) (h1 : 1 ≤ a) (h2 : a < U32) :
    u32pred a = a - 1 := by
  rw [u32_val] at h2
  simp only [u32pred, u32_val]
  omega

theorem calcNextWakeupTime_val (s : CFPSLimiter) (b : Bool)
    (vbl : VBlankScheduleTime) (now : Nat)
    (h1 : s.m_ulLastRelease ≤ s.m_ulLastGPUTimestamp)
    (h2 : s.m_ulLastGPUTimestamp < U64)
    (h3 : s.m_ulLastGPUTimestamp - s.m_ulLastRelease ≤ vbl.ulScheduledWakeupPoint)
    (h4 : vbl.ulScheduledWakeupPoint < U64)
    (h5 : now + 500000 < U64) :
    (CalcNextWakeupTime s b vbl now).1.ulScheduledWakeupPoint =
      if now + 500000 <
          vbl.ulScheduledWakeupPoint -
            (s.m_ulLastGPUTimestamp - s.m_ulLastRelease)
      then now
      else vbl.ulScheduledWakeupPoint -
             (s.m_ulLastGPUTimestamp - s.m_ulLastRelease) := by
  have base : (CalcNextWakeupTime s b vbl now).1.ulScheduledWakeupPoint =
      if u64add now 500000 <
          u64sub vbl.ulScheduledWakeupPoint
            (u64sub s.m_ulLastGPUTimestamp s.m_ulLastRelease)
      then now
      else u64sub vbl.ulScheduledWakeupPoint
             (u64sub s.m_ulLastGPUTimestamp s.m_ulLastRelease) := rfl
  rw [base, u64sub_eq _ _ h1 h2, u64sub_eq _ _ h3 h4, u64add_eq _ _ h5]

theorem calc_exC1_val (b : Bool) (now : Nat) (h5 : now + 500000 < U64) :
    (CalcNextWakeupTime exLimiterC1 b exOracleC1 now).1.ulScheduledWakeupPoint =
      if now + 500000 < 14666666 then now else 14666666 := by
  have h := calcNextWakeupTime_val exLimiterC1 b exOracleC1 now
    (by norm_num [exLimiterC1]) (by norm_num [exLimiterC1, u64_val])
    (by norm_num [exLimiterC1, exOracleC1])
    (by norm_num [exOracleC1, u64_val]) h5
  simpa [exLimiterC1, exOracleC1] using h

theorem holdBuffer_queue (w : World) (p : Nat) :
    (HoldBuffer w p).limiter.m_pHeldBuffers =
      w.limiter.m_pHeldBuffers ++ [p] := rfl

theorem releaseOldest_state_nil (w : World) (now : Nat)
    (h : w.limiter.m_pHeldBuffers = []) :
    (ReleaseOldestBuffer w now).2 = w := by
  simp [ReleaseOldestBuffer, h]

theorem releaseOldest_queue_cons (w : World) (now front : Nat)
    (rest : List Nat) (h : w.limiter.m_pHeldBuffers = front :: rest) :
    (ReleaseOldestBuffer w now).2.limiter.m_pHeldBuffers = rest := by
  simp [ReleaseOldestBuffer, h]

/-- Every one of the five public operations preserves equality of the
acquired counter and the queue length (as long as the queue length stays
inside the `uint32_t` range), so the freshly constructed state is the sole
source of the mismatch exhibited in `initial_acquired_count_mismatch`. -/
theorem acquired_eq_length_preserved (w : World) (op : LimiterOp)
    (hinv : w.limiter.m_uAcquiredBuffers = w.limiter.m_pHeldBuffers.length)
    (hlen : w.limiter.m_pHeldBuffers.length + 1 < U32) :
    (runLimiterOp w op).limiter.m_uAcquiredBuffers =
      (runLimiterOp w op).limiter.m_pHeldBuffers.length := by
  rw [u32_val] at hlen
  cases op with
  | hold p =>
    simp [runLimiterOp, HoldBuffer, hinv, u32succ, u32_val]
    omega
  | releaseOldest now =>
    cases hq : w.limiter.m_pHeldBuffers with
    | nil => rw [runLimiterOp, releaseOldest_state_nil w now hq, hinv]
    | cons front rest =>
      have hlen2 : w.limiter.m_pHeldBuffers.length = rest.length + 1 := by
        rw [hq]; rfl
      rw [hlen2] at hlen
      simp [runLimiterOp, ReleaseOldestBuffer, hq, hinv, hlen2, u32pred, u32_val]
      omega
  | releaseAll => simp [runLimiterOp, ReleaseAllBuffers]
  | setTotal n => simp [runLimiterOp, SetTotalBuffers, ReleaseAllBuffers]
  | markFrame p cpu gpu rearm vbl now =>
    cases rearm with
    | false =>
      simp [runLimiterOp, MarkFrame, HoldBuffer, hinv, u32succ, u32_val]
      omega
    | true =>
      simp [runLimiterOp, MarkFrame, HoldBuffer, ArmNextFrame,
        CalcNextWakeupTime, hinv, u32succ, u32_val]
      omega

/-- C1 (counterexample): with the spec's example inputs — oracle scheduled
wakeup point (the returned target latch) `16,666,666`, last GPU completion
`5,000,000`, last release `3,000,000` — and `now = 15,000,000`, the code
returns the candidate `14,666,666`, not `now = 15,000,000` as the claim's
second concrete example states: the candidate `14,666,666` does not exceed
`now + 500,000 = 15,500,000`, so the fallback is not engaged. -/
theorem calcNextWakeupTime_example_counterexample :
    (CalcNextWakeupTime exLimiterC1 true exOracleC1 15000000).1.ulTargetLatch
      = 16666666 ∧
    (CalcNextWakeupTime exLimiterC1 true exOracleC1
      15000000).1.ulScheduledWakeupPoint = 14666666 ∧
    (CalcNextWakeupTime exLimiterC1 true exOracleC1
      15000000).1.ulScheduledWakeupPoint ≠ 15000000 := by
  refine ⟨rfl, rfl, by decide⟩

/-- C1 (amended): CalcNextWakeupTime returns
`scheduledWakeupPoint = targetLatchTime − (lastCompletionTime − lastReleaseTime)`
when that candidate is at most `now + 500,000` ns and falls back to `now`
when the candidate exceeds `now + 500,000` ns (first conjunct, stated with
exact arithmetic under in-range hypotheses); in particular, with
`targetLatchTime = 16,666,666`, `lastCompletionTime = 5,000,000`,
`lastReleaseTime = 3,000,000` it returns `14,666,666` whenever
`now ≥ 14,166,666` — for example at `now = 15,000,000` — and returns `now`
whenever `now < 14,166,666` (the fallback case). -/
theorem calcNextWakeupTime_fallback_amended (s : CFPSLimiter) (b : Bool)
    (vbl : VBlankScheduleTime) (now : Nat) :
    (s.m_ulLastRelease ≤ s.m_ulLastGPUTimestamp →
      s.m_ulLastGPUTimestamp < U64 →
      s.m_ulLastGPUTimestamp - s.m_ulLastRelease ≤ vbl.ulScheduledWakeupPoint →
      vbl.ulScheduledWakeupPoint < U64 →
      now + 500000 < U64 →
      (CalcNextWakeupTime s b vbl now).1.ulScheduledWakeupPoint =
        if now + 500000 <
            vbl.ulScheduledWakeupPoint -
              (s.m_ulLastGPUTimestamp - s.m_ulLastRelease)
        then now
        else vbl.ulScheduledWakeupPoint -
               (s.m_ulLastGPUTimestamp - s.m_ulLastRelease)) ∧
    (CalcNextWakeupTime exLimiterC1 b exOracleC1
      15000000).1.ulScheduledWakeupPoint = 14666666 ∧
    (14166666 ≤ now → now + 500000 < U64 →
      (CalcNextWakeupTime exLimiterC1 b exOracleC1
        now).1.ulScheduledWakeupPoint = 14666666) ∧
    (now < 14166666 →
      (CalcNextWakeupTime exLimiterC1 b exOracleC1
        now).1.ulScheduledWakeupPoint = now) := by
  refine ⟨?_, ?_, ?_, ?_⟩
  · intro h1 h2 h3 h4 h5
    exact calcNextWakeupTime_val s b vbl now h1 h2 h3 h4 h5
  · cases b <;> decide
  · intro hge h5
    rw [calc_exC1_val b now h5]
    have : ¬ (now + 500000 < 14666666) := by omega
    simp [this]
  · intro hlt
    have h5 : now + 500000 < U64 := by rw [u64_val]; omega
    rw [calc_exC1_val b now h5]
    have : now + 500000 < 14666666 := by omega
    simp [this]

/-- C1 (witness): both branches of the amended statement at concrete
inputs: `now = 15,000,000` yields the candidate `14,666,666`, and
`now = 1,000,000` engages the fallback and yields `1,000,000`. -/
theorem calcNextWakeupTime_fallback_amended_witness :
    (CalcNextWakeupTime exLimiterC1 true exOracleC1
      15000000).1.ulScheduledWakeupPoint = 14666666 ∧
    (CalcNextWakeupTime exLimiterC1 true exOracleC1
      1000000).1.ulScheduledWakeupPoint = 1000000 :=
  ⟨(calcNextWakeupTime_fallback_amended exLimiterC1 true exOracleC1
      15000000).2.2.1 (by norm_num) (by norm_num [u64_val]),
   (calcNextWakeupTime_fallback_amended exLimiterC1 true exOracleC1
      1000000).2.2.2 (by norm_num)⟩

/-- C2: the claimed invariant "acquired-buffer counter = length of the
held-buffer queue at every observation point reachable from the initial
state" already fails at the initial state itself: the source initialises
`m_uAcquiredBuffers` to `1u` while `m_pHeldBuffers` starts empty, so the
counter is 1 and the queue length 0 before any operation has run. (By
`acquired_eq_length_preserved`, every one of the five operations preserves
the equality, so this initialiser is the sole source of the mismatch and
the claimed invariant is evidently the intent of the counter.) -/
theorem initial_acquired_count_mismatch :
    initWorld.limiter.m_uAcquiredBuffers = 1 ∧
    initWorld.limiter.m_pHeldBuffers.length = 0 ∧
    initWorld.limiter.m_uAcquiredBuffers ≠
      initWorld.limiter.m_pHeldBuffers.length :=
  ⟨rfl, rfl, by decide⟩

/-- C3: `ReleaseOldestBuffer` on an empty queue returns 0 and changes
nothing; on a non-empty queue it sets the front buffer's release time to
the current time (leaving all other buffers' records untouched), pops the
front of the queue, decrements the acquired counter (shown both as the
wrapping `uint32_t` decrement and, for counter values in `[1, 2^32)`, as
the plain decrement) and returns the pre-decrement counter value. -/
theorem releaseOldestBuffer_spec (w : World) (now : Nat) :
    (w.limiter.m_pHeldBuffers = [] →
      ReleaseOldestBuffer w now = (0, w)) ∧
    (∀ front rest, w.limiter.m_pHeldBuffers = front :: rest →
      (ReleaseOldestBuffer w now).1 = w.limiter.m_uAcquiredBuffers ∧
      (ReleaseOldestBuffer w now).2.buffers front =
        { (w.buffers front) with ulReleaseTime := now } ∧
      (∀ i, i ≠ front →
        (ReleaseOldestBuffer w now).2.buffers i = w.buffers i) ∧
      (ReleaseOldestBuffer w now).2.limiter.m_pHeldBuffers = rest ∧
      (ReleaseOldestBuffer w now).2.limiter.m_uAcquiredBuffers =
        u32pred w.limiter.m_uAcquiredBuffers ∧
      (1 ≤ w.limiter.m_uAcquiredBuffers →
        w.limiter.m_uAcquiredBuffers < U32 →
        (ReleaseOldestBuffer w now).2.limiter.m_uAcquiredBuffers =
          w.limiter.m_uAcquiredBuffers - 1)) := by
  constructor
  · intro h
    simp [ReleaseOldestBuffer, h]
  · intro front rest h
    refine ⟨?_, ?_, ?_, ?_, ?_, ?_⟩
    · simp [ReleaseOldestBuffer, h]
    · simp [ReleaseOldestBuffer, h]
    · intro i hi
      simp [ReleaseOldestBuffer, h, hi]
    · simp [ReleaseOldestBuffer, h]
    · simp [ReleaseOldestBuffer, h]
    · intro h1 h2
      simp [ReleaseOldestBuffer, h, u32pred_eq _ h1 h2]

/-- C3 (witness): releasing from a world holding the single buffer 42 with
counter 1 at time 777 returns 1, stamps buffer 42's release time with 777,
empties the queue and sets the counter to 0. -/
theorem releaseOldestBuffer_spec_witness :
    (ReleaseOldestBuffer exWorldC3 777).1 = 1 ∧
    (ReleaseOldestBuffer exWorldC3 777).2.buffers 42 =
      { ulCPUTime := 0, ulGPUTime := 0, ulReleaseTime := 777 } ∧
    (ReleaseOldestBuffer exWorldC3 777).2.buffers 7 = exWorldC3.buffers 7 ∧
    (ReleaseOldestBuffer exWorldC3 777).2.limiter.m_pHeldBuffers = [] ∧
    (ReleaseOldestBuffer exWorldC3 777).2.limiter.m_uAcquiredBuffers = 0 := by
  obtain ⟨-, h⟩ := releaseOldestBuffer_spec exWorldC3 777
  obtain ⟨h1, h2, h3, h4, -, h6⟩ := h 42 [] rfl
  refine ⟨h1, ?_, h3 7 (by decide), h4, ?_⟩
  · rw [h2]
    rfl
  · rw [h6 (by decide) (by decide)]
    rfl

/-- C4: over any sequence of `HoldBuffer` / `ReleaseOldestBuffer` calls,
the initially held buffers followed by the submitted buffers equal the
released buffers followed by the still-held buffers, all in order — i.e.
buffers are released exactly in submission (FIFO) order, with no
reordering or skipping. -/
theorem release_order_fifo (ops : List BufferOp) (w : World) :
    w.limiter.m_pHeldBuffers ++ submittedBuffers ops =
      releasedBuffers w ops ++
        (runBufferOps w ops).limiter.m_pHeldBuffers := by
  induction ops generalizing w with
  | nil => simp [submittedBuffers, releasedBuffers, runBufferOps]
  | cons op ops ih =>
    cases op with
    | hold p =>
      have h1 := ih (HoldBuffer w p)
      rw [holdBuffer_queue] at h1
      simp only [submittedBuffers, releasedBuffers, runBufferOps, runBufferOp]
      simpa [List.append_assoc] using h1
    | releaseOldest n =>
      cases hq : w.limiter.m_pHeldBuffers with
      | nil =>
        have hw : (ReleaseOldestBuffer w n).2 = w :=
          releaseOldest_state_nil w n hq
        have h1 := ih w
        rw [hq] at h1
        simp only [submittedBuffers, releasedBuffers, runBufferOps,
          runBufferOp, hw, hq]
        simp only [List.nil_append, List.take_nil] at h1 ⊢
        exact h1
      | cons front rest =>
        have hw : (ReleaseOldestBuffer w n).2.limiter.m_pHeldBuffers = rest :=
          releaseOldest_queue_cons w n front rest hq
        have h1 := ih (ReleaseOldestBuffer w n).2
        rw [hw] at h1
        simp only [submittedBuffers, releasedBuffers, runBufferOps,
          runBufferOp, hq]
        simp [List.append_assoc, h1]

/-- C6: `ArmNextFrame(preemptive = true)` on an already armed limiter is a
complete no-op: the whole state — armed flag, cached schedule, registered
timer deadline and all buffer records — is unchanged. -/
theorem armNextFrame_preemptive_noop (w : World) (vbl : VBlankScheduleTime)
    (now : Nat) (h : w.limiter.m_bArmed = true) :
    ArmNextFrame w true vbl now = w := by
  simp [ArmNextFrame, h]

/-- C6 (witness): on a concretely armed world, a preemptive arm changes
nothing. -/
theorem armNextFrame_preemptive_noop_witness :
    ArmNextFrame exWorldArmed true exOracleC1 12345 = exWorldArmed :=
  armNextFrame_preemptive_noop exWorldArmed exOracleC1 12345 rfl

/-- C7: `SetTotalBuffers(n)` stores `n` as the total buffer count, empties
the held-buffer queue and zeroes the acquired counter, for every prior
state. -/
theorem setTotalBuffers_resets (w : World) (n : Nat) :
    (SetTotalBuffers w n).limiter.m_uTotalBuffers = n ∧
    (SetTotalBuffers w n).limiter.m_pHeldBuffers = [] ∧
    (SetTotalBuffers w n).limiter.m_uAcquiredBuffers = 0 :=
  ⟨rfl, rfl, rfl⟩

/-- C5: the latency the code computes in `MarkFrame` for a buffer with
previous release time `3,000,000` and new completion time `5,000,000` is
`5,000,000` (the dead local `ulDelta = ulGPUTimestampNanos - ulDelta`
self-reference, i.e. completion minus zero), not the claimed
`completion − previousRelease = 2,000,000`; moreover the value is dead:
`MarkFrame` leaves `m_ulLastGPUTimestamp` and `m_ulLastRelease` — the only
inputs of `CalcNextWakeupTime`'s latency window — untouched, so the next
schedule computation never sees it. -/
theorem markFrame_latency_bug :
    MarkFrame_ulDelta 3000000 5000000 = 5000000 ∧
    MarkFrame_ulDelta 3000000 5000000 ≠ 5000000 - 3000000 ∧
    (MarkFrame exWorldC5 1 4000000 5000000 false exOracleC1
      0).limiter.m_ulLastGPUTimestamp =
      exWorldC5.limiter.m_ulLastGPUTimestamp ∧
    (MarkFrame exWorldC5 1 4000000 5000000 false exOracleC1
      0).limiter.m_ulLastRelease =
      exWorldC5.limiter.m_ulLastRelease := by
  refine ⟨by decide, by decide, rfl, rfl⟩

/-- C8: after `MarkFrame(buffer, submitTime, completionTime, rearm)` the
buffer's record holds exactly the new submit (CPU) time, the new
completion (GPU) time, and the release time the buffer had before the call;
all other buffers' records are untouched; the buffer is enqueued and the
acquired counter incremented; the total-buffer count and the
`m_ulLastGPUTimestamp` / `m_ulLastRelease` members are unchanged; and with
`rearm = false` the limiter state changes in nothing but the enqueue. -/
theorem markFrame_effects (w : World) (p cpu gpu : Nat) (rearm : Bool)
    (vbl : VBlankScheduleTime) (now : Nat) :
    (MarkFrame w p cpu gpu rearm vbl now).buffers p =
      { ulCPUTime := cpu, ulGPUTime := gpu,
        ulReleaseTime := (w.buffers p).ulReleaseTime } ∧
    (∀ i, i ≠ p →
      (MarkFrame w p cpu gpu rearm vbl now).buffers i = w.buffers i) ∧
    (MarkFrame w p cpu gpu rearm vbl now).limiter.m_pHeldBuffers =
      w.limiter.m_pHeldBuffers ++ [p] ∧
    (MarkFrame w p cpu gpu rearm vbl now).limiter.m_uAcquiredBuffers =
      u32succ w.limiter.m_uAcquiredBuffers ∧
    (MarkFrame w p cpu gpu rearm vbl now).limiter.m_uTotalBuffers =
      w.limiter.m_uTotalBuffers ∧
    (MarkFrame w p cpu gpu rearm vbl now).limiter.m_ulLastGPUTimestamp =
      w.limiter.m_ulLastGPUTimestamp ∧
    (MarkFrame w p cpu gpu rearm vbl now).limiter.m_ulLastRelease =
      w.limiter.m_ulLastRelease ∧
    (rearm = false →
      (MarkFrame w p cpu gpu rearm vbl now).limiter =
        { w.limiter with
            m_pHeldBuffers := w.limiter.m_pHeldBuffers ++ [p],
            m_uAcquiredBuffers := u32succ w.limiter.m_uAcquiredBuffers }) := by
  cases rearm with
  | false =>
    refine ⟨by simp [MarkFrame, HoldBuffer], ?_, rfl, rfl, rfl, rfl, rfl,
      fun _ => rfl⟩
    intro i hi
    simp [MarkFrame, HoldBuffer, hi]
  | true =>
    refine ⟨by simp [MarkFrame, HoldBuffer, ArmNextFrame, CalcNextWakeupTime],
      ?_, rfl, rfl, rfl, rfl, rfl, fun h => by cases h⟩
    intro i hi
    simp [MarkFrame, HoldBuffer, ArmNextFrame, CalcNextWakeupTime, hi]

/-- C8 (witness): marking buffer 7 in the initial world with CPU time 10,
GPU time 20 and no re-arm gives buffer 7 the record `(10, 20, 0)` and
leaves buffer 3's record alone. -/
theorem markFrame_effects_witness :
    (MarkFrame initWorld 7 10 20 false exOracleC1 0).buffers 7 =
      { ulCPUTime := 10, ulGPUTime := 20,
        ulReleaseTime := (initWorld.buffers 7).ulReleaseTime } ∧
    (MarkFrame initWorld 7 10 20 false exOracleC1 0).buffers 3 =
      initWorld.buffers 3 ∧
    (MarkFrame initWorld 7 10 20 false exOracleC1 0).limiter =
      { initWorld.limiter with
          m_pHeldBuffers := [7],
          m_uAcquiredBuffers := u32succ 1 } :=
  ⟨(markFrame_effects initWorld 7 10 20 false exOracleC1 0).1,
   (markFrame_effects initWorld 7 10 20 false exOracleC1 0).2.1 3 (by decide),
   (markFrame_effects initWorld 7 10 20 false exOracleC1 0).2.2.2.2.2.2.2 rfl⟩

/-- C9: `CalcNextWakeupTime` with `peek = true` mutates nothing — the
returned limiter state is the input state — and a second consecutive call
on that state with the same oracle answer and the same clock sample
returns an identical schedule (target vblank, target latch and scheduled
wakeup point). -/
theorem calcNextWakeupTime_peek_stable (s : CFPSLimiter)
    (vbl : VBlankScheduleTime) (now : Nat) :
    (CalcNextWakeupTime s true vbl now).2 = s ∧
    (CalcNextWakeupTime (CalcNextWakeupTime s true vbl now).2 true vbl
      now).1 = (CalcNextWakeupTime s true vbl now).1 :=
  ⟨rfl, rfl⟩

/-- C10: the target-latch field `CalcNextWakeupTime` returns is the
oracle schedule's scheduled-wakeup-point field; the result is entirely
independent of the oracle's own target-latch field (which is never read);
and the candidate release time is the scheduled-wakeup-point field minus
the latency window. -/
theorem calcNextWakeupTime_latch_is_oracle_wakeup (s : CFPSLimiter)
    (b : Bool) (vbl : VBlankScheduleTime) (now x : Nat) :
    (CalcNextWakeupTime s b vbl now).1.ulTargetLatch =
      vbl.ulScheduledWakeupPoint ∧
    CalcNextWakeupTime s b { vbl with ulTargetLatch := x } now =
      CalcNextWakeupTime s b vbl now ∧
    (CalcNextWakeupTime s b vbl now).1.ulScheduledWakeupPoint =
      (if u64add now 500000 <
          u64sub vbl.ulScheduledWakeupPoint
            (u64sub s.m_ulLastGPUTimestamp s.m_ulLastRelease)
       then now
       else u64sub vbl.ulScheduledWakeupPoint
              (u64sub s.m_ulLastGPUTimestamp s.m_ulLastRelease)) :=
  ⟨rfl, rfl, rfl⟩

end Gamescope
